import Mathlib

/-! Verification development for the file-profiling engine of the
Data-Algo-Analyser repository (`src/lib/fileAnalyzer.ts`, re-exported next to
`src/lib/resultGenerator.ts`).  The JavaScript code is embedded shallowly:
strings are Lean `String`s, JavaScript numbers are modelled as `ℚ` (every
value the analyzers actually compute with is a finite double, i.e. a rational
with a power-of-two denominator; non-finite results of `parseFloat` / `Number`
are folded into `Option.none`, which is sound because every use in the source
immediately filters or rejects non-finite values), JSON values are an
inductive type, thrown `TypeError`s are `Option.none`, and the impure
primitives `Date.now`, `new Date().toISOString()` and `Math.random()` are
threaded as explicit parameters. -/

namespace DataAlgo

/-! ## JavaScript string primitives -/

/-- Whitespace for `trim`, `\s` and `Number()` coercion (the common ASCII
whitespace characters plus NBSP and the BOM). -/
def jsWs (c : Char) : Bool :=
  c == (' ') || c == ('\t') || c == ('\n') || c == ('\r') ||
  c == Char.ofNat 11 || c == Char.ofNat 12 || c == Char.ofNat 160 ||
  c == Char.ofNat 65279

/-- `String.prototype.trim`. -/
def jsTrim (s : String) : String :=
  String.mk (((s.data.dropWhile jsWs).reverse.dropWhile jsWs).reverse)

/-- `String.prototype.toLowerCase` (ASCII part, which is all the source needs:
it is applied to extensions and to values compared against ASCII keyword
lists). -/
def jsToLower (s : String) : String := String.mk (s.data.map Char.toLower)

/-- `String.prototype.toUpperCase` (ASCII part). -/
def jsToUpper (s : String) : String := String.mk (s.data.map Char.toUpper)

/-- `String.prototype.split` with a single-character separator, on character
lists.  Mirrors the JavaScript behaviour: `"".split(c) = [""]`, separators at
the ends produce empty tokens. -/
def splitCh (c : Char) : List Char → List (List Char)
  | [] => [[]]
  | x :: xs =>
    match splitCh c xs with
    | [] => [[]]
    | r :: rs => if x == c then [] :: r :: rs else (x :: r) :: rs

/-- `String.prototype.split` with a single-character separator. -/
def jsSplit (c : Char) (s : String) : List String :=
  (splitCh c s.data).map String.mk

/-! ## JavaScript object semantics (assignment-built records)

`obj[key] = value` on a plain object overwrites in place when the key exists
and appends a new key otherwise; `Object.keys` lists keys in insertion order.
The analyzers build `dataTypes` and `statistics` exactly this way. -/

/-- Property read: the value at the first occurrence of the key. -/
def aget {α : Type} (m : List (String × α)) (k : String) : Option α :=
  (m.find? (fun p => p.1 == k)).map Prod.snd

/-- Property assignment: overwrite an existing key in place, else append. -/
def aset {α : Type} (m : List (String × α)) (k : String) (v : α) :
    List (String × α) :=
  if m.any (fun p => p.1 == k) then
    m.map (fun p => if p.1 == k then (k, v) else p)
  else m ++ [(k, v)]

/-- First-occurrence deduplication (insertion order of `Object.keys`). -/
def dedupFirst (ks : List String) : List String :=
  ks.foldl (fun acc k => if acc.contains k then acc else acc ++ [k]) []

/-! ## JSON values -/

/-- Values produced by `JSON.parse` (and the columns extracted from them;
a missing property — `undefined` — is represented by `Option.none` at use
sites). -/
inductive JSON where
  | null
  | bool (b : Bool)
  | num (q : ℚ)
  | str (s : String)
  | arr (elems : List JSON)
  | obj (fields : List (String × JSON))

/-! ## Number-to-string and string-to-number coercions -/

/-- Decimal digits of the fractional part `num / den` by long division.
Every JavaScript double has a terminating decimal expansion, so for the
numbers the source can actually hold the fuel never runs out below 100
digits in the data the analyzers print. -/
def fracDigits : ℕ → ℕ → ℕ → String
  | _, _, 0 => ""
  | num, den, fuel + 1 =>
    if num = 0 then ""
    else Nat.repr ((num * 10) / den) ++ fracDigits ((num * 10) % den) den fuel

/-- Decimal rendering of a non-negative rational. -/
def nonnegNumToString (q : ℚ) : String :=
  let ip := q.num.toNat / q.den
  let fr := q.num.toNat % q.den
  if fr = 0 then Nat.repr ip
  else Nat.repr ip ++ (".") ++ fracDigits fr q.den 100

/-- JavaScript number-to-string coercion (`String(x)` / template literals) on
the modelled rationals.  Exponential notation for very large or very small
magnitudes is not modelled; no claim depends on it. -/
def numToString (q : ℚ) : String :=
  if q < 0 then ("-") ++ nonnegNumToString (-q) else nonnegNumToString q

mutual

/-- JavaScript `ToString` on JSON values: `String(v)`.  Arrays stringify as
their elements joined by commas (`null` elements becoming empty), plain
objects as `"[object Object]"`. -/
def jsToString : JSON → String
  | JSON.null => "null"
  | JSON.bool b => if b then "true" else "false"
  | JSON.num q => numToString q
  | JSON.str s => s
  | JSON.arr xs => String.intercalate (",") (jsToStringElems xs)
  | JSON.obj _ => "[object Object]"

/-- Element strings for `Array.prototype.toString` (`null` prints empty). -/
def jsToStringElems : List JSON → List String
  | [] => []
  | JSON.null :: js => ("") :: jsToStringElems js
  | j :: js => jsToString j :: jsToStringElems js

end

/-- Leading decimal digits and the rest. -/
def spanDigits (cs : List Char) : List Char × List Char :=
  (cs.takeWhile Char.isDigit, cs.dropWhile Char.isDigit)

/-- Numeric value of a digit string. -/
def digitsToNat (ds : List Char) : ℕ :=
  ds.foldl (fun a c => a * 10 + (c.toNat - 48)) 0

/-- Exponent part for `parseFloat`: if no digits follow, the exponent marker
is not consumed and the value is unchanged (exponent 0). -/
def parseExp (cs : List Char) : ℤ :=
  let p : ℤ × List Char :=
    match cs with
    | '+' :: r => (1, r)
    | '-' :: r => (-1, r)
    | _ => (1, cs)
  let ds := (spanDigits p.2).1
  if ds = [] then 0 else p.1 * (digitsToNat ds : ℤ)

/-- `parseFloat` after whitespace and sign: longest numeric prefix.
Returns `none` for NaN and also for `Infinity` (a non-finite result; every
use in the source either filters the value out or has already required
`isFinite`, so the two cases never need to be distinguished). -/
def parseFloatCore (cs : List Char) : Option ℚ :=
  if cs.take 8 = ("Infinity").data then none
  else
    let ip := (spanDigits cs).1
    let r1 := (spanDigits cs).2
    let fp : List Char :=
      match r1 with
      | '.' :: rest => (spanDigits rest).1
      | _ => []
    let r2 : List Char :=
      match r1 with
      | '.' :: rest => (spanDigits rest).2
      | _ => r1
    if ip = [] ∧ fp = [] then none
    else
      let mant : ℚ := (digitsToNat ip : ℚ) + (digitsToNat fp : ℚ) / ((10 : ℚ) ^ fp.length)
      let expo : ℤ :=
        match r2 with
        | 'e' :: rest => parseExp rest
        | 'E' :: rest => parseExp rest
        | _ => 0
      some (mant * (10 : ℚ) ^ expo)

/-- JavaScript `parseFloat` on strings. -/
def jsParseFloat (s : String) : Option ℚ :=
  match s.data.dropWhile jsWs with
  | '+' :: r => parseFloatCore r
  | '-' :: r => (parseFloatCore r).map (fun q => -q)
  | cs => parseFloatCore cs

/-- Hex digit test. -/
def isHexDig (c : Char) : Bool :=
  c.isDigit || (decide (('a') ≤ c) && decide (c ≤ ('f'))) ||
  (decide (('A') ≤ c) && decide (c ≤ ('F')))

/-- Hex digit value. -/
def hexVal (c : Char) : ℕ :=
  if c.isDigit then c.toNat - 48
  else if decide (('a') ≤ c) && decide (c ≤ ('f')) then c.toNat - 87
  else if decide (('A') ≤ c) && decide (c ≤ ('F')) then c.toNat - 55
  else 0

/-- Full-string radix literal (`0x…`, `0o…`, `0b…` bodies). -/
def parseRadix (radix : ℕ) (isDig : Char → Bool) (toVal : Char → ℕ)
    (cs : List Char) : Option ℚ :=
  if cs ≠ [] ∧ cs.all isDig then
    some ((cs.foldl (fun a c => a * radix + toVal c) 0 : ℕ) : ℚ)
  else none

/-- Full-string exponent for `Number()` (digits required, nothing after). -/
def expFull (cs : List Char) : Option ℤ :=
  let p : ℤ × List Char :=
    match cs with
    | '+' :: r => (1, r)
    | '-' :: r => (-1, r)
    | _ => (1, cs)
  let ds := (spanDigits p.2).1
  let rr := (spanDigits p.2).2
  if ds = [] ∨ rr ≠ [] then none else some (p.1 * (digitsToNat ds : ℤ))

/-- Full-string unsigned decimal literal for `Number()` (`"12"`, `"12."`,
`".5"`, `"1e3"`); `none` for anything else, including `"Infinity"`
(non-finite, folded with NaN as at `parseFloatCore`). -/
def decFullParse (cs : List Char) : Option ℚ :=
  let ip := (spanDigits cs).1
  let r1 := (spanDigits cs).2
  let fp : List Char :=
    match r1 with
    | '.' :: rest => (spanDigits rest).1
    | _ => []
  let r2 : List Char :=
    match r1 with
    | '.' :: rest => (spanDigits rest).2
    | _ => r1
  if ip = [] ∧ fp = [] then none
  else
    let mant : ℚ := (digitsToNat ip : ℚ) + (digitsToNat fp : ℚ) / ((10 : ℚ) ^ fp.length)
    match r2 with
    | [] => some mant
    | 'e' :: rest => (expFull rest).map (fun e => mant * (10 : ℚ) ^ e)
    | 'E' :: rest => (expFull rest).map (fun e => mant * (10 : ℚ) ^ e)
    | _ => none

/-- JavaScript `Number()` on strings: trims, empty string is `0`, accepts
full-string decimal, hex, octal and binary literals; `none` encodes a
non-finite result (NaN or `±Infinity`). -/
def jsNumberOfString (s : String) : Option ℚ :=
  match ((s.data.dropWhile jsWs).reverse.dropWhile jsWs).reverse with
  | [] => some 0
  | '0' :: 'x' :: rest => parseRadix 16 isHexDig hexVal rest
  | '0' :: 'X' :: rest => parseRadix 16 isHexDig hexVal rest
  | '0' :: 'o' :: rest => parseRadix 8 (fun c => decide (('0') ≤ c) && decide (c ≤ ('7'))) (fun c => c.toNat - 48) rest
  | '0' :: 'O' :: rest => parseRadix 8 (fun c => decide (('0') ≤ c) && decide (c ≤ ('7'))) (fun c => c.toNat - 48) rest
  | '0' :: 'b' :: rest => parseRadix 2 (fun c => c == ('0') || c == ('1')) (fun c => c.toNat - 48) rest
  | '0' :: 'B' :: rest => parseRadix 2 (fun c => c == ('0') || c == ('1')) (fun c => c.toNat - 48) rest
  | '+' :: rest => decFullParse rest
  | '-' :: rest => (decFullParse rest).map (fun q => -q)
  | cs => decFullParse cs

/-- JavaScript `ToNumber` on JSON values, as used by `isFinite(v)`:
`none` encodes a non-finite result. -/
def jsToNumber : JSON → Option ℚ
  | JSON.null => some 0
  | JSON.bool b => some (if b then 1 else 0)
  | JSON.num q => some q
  | JSON.str s => jsNumberOfString s
  | JSON.arr xs => jsNumberOfString (jsToString (JSON.arr xs))
  | JSON.obj fs => jsNumberOfString (jsToString (JSON.obj fs))

/-- Canonical array-index strings (`"0"`, `"1"`, …) for property access. -/
def parseIndex (s : String) : Option ℕ :=
  if s.data ≠ [] ∧ s.data.all Char.isDigit ∧ (s = ("0") ∨ s.data.head? ≠ some ('0'))
  then some (digitsToNat s.data) else none

/-- JavaScript property read `v[key]`.  The outer `none` is the `TypeError`
thrown by reading a property of `null`; `some none` is `undefined`. -/
def jget : JSON → String → Option (Option JSON)
  | JSON.null, _ => none
  | JSON.bool _, _ => some none
  | JSON.num _, _ => some none
  | JSON.str s, key =>
    if key = ("length") then some (some (JSON.num (s.data.length : ℚ)))
    else
      match parseIndex key with
      | some i =>
        match s.data.get? i with
        | some c => some (some (JSON.str (String.mk [c])))
        | none => some none
      | none => some none
  | JSON.arr xs, key =>
    if key = ("length") then some (some (JSON.num (xs.length : ℚ)))
    else
      match parseIndex key with
      | some i =>
        match xs.get? i with
        | some j => some (some j)
        | none => some none
      | none => some none
  | JSON.obj fs, key => some (aget fs key)

/-- `Object.keys` (`none` is the `TypeError` on `null`). -/
def jkeys : JSON → Option (List String)
  | JSON.null => none
  | JSON.bool _ => some []
  | JSON.num _ => some []
  | JSON.str s => some ((List.range s.data.length).map Nat.repr)
  | JSON.arr xs => some ((List.range xs.length).map Nat.repr)
  | JSON.obj fs => some (dedupFirst (fs.map Prod.fst))

/-- JavaScript falsiness of a JSON value (`!content`). -/
def jsFalsy : JSON → Bool
  | JSON.null => true
  | JSON.bool b => !b
  | JSON.num q => q == 0
  | JSON.str s => s == ("")
  | _ => false

/-- `typeof v === "object"` (true for `null`, arrays and plain objects). -/
def jsTypeofObject : JSON → Bool
  | JSON.null => true
  | JSON.arr _ => true
  | JSON.obj _ => true
  | _ => false

/-! ## The date pattern

The source tests values against
`/^\d{4}[-\x2f]\d{1,2}[-\x2f]\d{1,2}|\d{1,2}[-\x2f]\d{1,2}[-\x2f]\d{2,4}$/`.
The alternation binds loosest, so the regex is `^A | B$`: the first
alternative is anchored only at the start of the string and the second only
at the end.  The matcher below embeds exactly that (backtracking over the
`{1,2}` repetitions becomes a disjunction). -/

/-- `[-\x2f]`, the separator class. -/
def sepB (c : Char) : Bool := c == ('-') || c == ('/')

/-- `\d{1,2}` followed by a continuation: one digit and the continuation, or
two digits and the continuation (regex backtracking as a disjunction). -/
def tail1or2 (k : List Char → Bool) : List Char → Bool
  | [] => false
  | [a] => Char.isDigit a && k []
  | a :: b :: r2 =>
    Char.isDigit a && (k (b :: r2) || (Char.isDigit b && k r2))

/-- A separator followed by a continuation. -/
def sepThen (k : List Char → Bool) : List Char → Bool
  | [] => false
  | a :: rest => sepB a && k rest

/-- Continuation accepting anything (the unanchored end of alternative A). -/
def anyTail : List Char → Bool := fun _ => true

/-- Alternative A, `^\d{4}[-\x2f]\d{1,2}[-\x2f]\d{1,2}`: matched at the start
of the string, with arbitrary trailing characters. -/
def matchA : List Char → Bool
  | a :: b :: c :: d :: rest =>
    Char.isDigit a && Char.isDigit b && Char.isDigit c && Char.isDigit d &&
      sepThen (tail1or2 (sepThen (tail1or2 anyTail))) rest
  | _ => false

/-- `\d{2,4}$`: what remains must be two to four digits. -/
def yearTail (cs : List Char) : Bool :=
  cs.all Char.isDigit && decide (2 ≤ cs.length) && decide (cs.length ≤ 4)

/-- Alternative B matched exactly against a suffix:
`\d{1,2}[-\x2f]\d{1,2}[-\x2f]\d{2,4}` consuming the whole remainder. -/
def exactB : List Char → Bool :=
  tail1or2 (sepThen (tail1or2 (sepThen yearTail)))

/-- Alternative B, `\d{1,2}[-\x2f]\d{1,2}[-\x2f]\d{2,4}$`: matched at any
position, anchored at the end. -/
def matchB : List Char → Bool
  | [] => exactB []
  | cs@(_ :: rest) => exactB cs || matchB rest

/-- `datePattern.test(s)`. -/
def datePatternTest (s : String) : Bool := matchA s.data || matchB s.data

/-! ## Type inference (`detectDataType`) -/

/-- The values dropped by the filter
`v !== undefined && v !== null && v !== ""`. -/
def isEmptyJSVal : Option JSON → Bool
  | none => true
  | some JSON.null => true
  | some (JSON.str s) => s == ("")
  | _ => false

/-- The surviving values (unwrapped: they are all defined). -/
def nonEmptyValuesOf (values : List (Option JSON)) : List JSON :=
  values.filterMap (fun v => if isEmptyJSVal v then none else v)

/-- `!isNaN(parseFloat(v)) && isFinite(v)`. -/
def numberCheck (v : JSON) : Bool :=
  (jsParseFloat (jsToString v)).isSome && (jsToNumber v).isSome

/-- `datePattern.test(String(v))`. -/
def dateCheck (v : JSON) : Bool := datePatternTest (jsToString v)

/-- `["true","false","0","1","yes","no"].includes(String(v).toLowerCase())`. -/
def booleanCheck (v : JSON) : Bool :=
  [("true"), ("false"), ("0"), ("1"), ("yes"), ("no")].contains
    (jsToLower (jsToString v))

/-- `detectDataType`: drop empty values, then first match among
number, date, boolean, defaulting to string. -/
def detectDataType (values : List (Option JSON)) : String :=
  if (nonEmptyValuesOf values).length = 0 then "empty"
  else if (nonEmptyValuesOf values).all numberCheck then "number"
  else if (nonEmptyValuesOf values).all dateCheck then "date"
  else if (nonEmptyValuesOf values).all booleanCheck then "boolean"
  else "string"

/-! ## Statistics (`calculateStatistics`) -/

/-- The stats record.  `stdDev` in the source is `Math.sqrt(variance)`; the
record stores the (rational) variance and the square root is taken in `ℝ` by
`stdDevR` below, since the exact real square root is what the double
computation approximates. -/
structure Stats where
  min : ℚ
  max : ℚ
  mean : ℚ
  median : ℚ
  variance : ℚ
  count : ℕ
deriving DecidableEq

/-- `calculateStatistics`; `none` models the empty record `{}` returned for
an empty input. -/
def calculateStatistics : List ℚ → Option Stats
  | [] => none
  | v :: vs =>
    let values := v :: vs
    let sum := values.foldl (fun a b => a + b) 0
    let mean := sum / (values.length : ℚ)
    let sortedValues := values.insertionSort (fun a b => a ≤ b)
    let median :=
      if values.length % 2 = 0 then
        (sortedValues.getD (values.length / 2 - 1) 0 +
          sortedValues.getD (values.length / 2) 0) / 2
      else sortedValues.getD (values.length / 2) 0
    let squaredDiffs := values.map (fun value => (value - mean) ^ 2)
    let variance := (squaredDiffs.foldl (fun a b => a + b) 0) / (values.length : ℚ)
    some
      { min := vs.foldl (fun a b => if b < a then b else a) v
        max := vs.foldl (fun a b => if a < b then b else a) v
        mean := mean
        median := median
        variance := variance
        count := values.length }

/-- The `stdDev` field: `Math.sqrt(variance)`. -/
noncomputable def stdDevR (s : Stats) : ℝ := Real.sqrt (s.variance : ℝ)

/-! ## Recommendations (`generateRecommendations`) -/

/-- Rule 1 message. -/
def recRandomForest : String :=
  "Random Forest algorithm is recommended for mixed numeric and categorical data"

/-- Rule 2 message. -/
def recPCA : String :=
  "Principal Component Analysis (PCA) can help reduce dimensionality"

/-- Rule 3 message. -/
def recDecisionTree : String :=
  "Decision Tree algorithm works well with categorical data"

/-- Rule 4 message. -/
def recTimeSeries : String :=
  "Time Series analysis is recommended for temporal data"

/-- Rule 5 messages. -/
def recXGBoost : String := "XGBoost algorithm performs well on large datasets"

/-- Rule 5 alternative message. -/
def recKNN : String :=
  "K-Nearest Neighbors algorithm works well with smaller datasets"

/-- Rule 6 messages. -/
def recGraphViz : String :=
  "Graph visualization is recommended for multi-dimensional data"

/-- Rule 6 alternative message. -/
def recBarCharts : String :=
  "Bar charts or line graphs are recommended for numeric data visualization"

/-- Rule 7 message. -/
def recPieCharts : String :=
  "Pie charts are effective for categorical data distribution"

/-- `generateRecommendations`: a pure function of the `dataTypes` map and the
row count, appending at most one string per rule in a fixed order. -/
def generateRecommendations (dataTypes : List (String × String))
    (rowCount : ℕ) : List String :=
  let numericColumns := ((dataTypes.map Prod.snd).filter (fun t => t = "number")).length
  let categoricalColumns :=
    ((dataTypes.map Prod.snd).filter (fun t => t = "string" ∨ t = "boolean")).length
  let dateColumns := ((dataTypes.map Prod.snd).filter (fun t => t = "date")).length
  (if numericColumns > 0 ∧ categoricalColumns > 0 then [recRandomForest] else []) ++
  (if numericColumns > 3 then [recPCA] else []) ++
  (if categoricalColumns > numericColumns then [recDecisionTree] else []) ++
  (if dateColumns > 0 then [recTimeSeries] else []) ++
  (if rowCount > 1000 then [recXGBoost]
   else if rowCount < 100 then [recKNN] else []) ++
  (if numericColumns > 3 then [recGraphViz]
   else if numericColumns > 0 then [recBarCharts] else []) ++
  (if categoricalColumns > 0 then [recPieCharts] else [])

/-! ## The analysis record -/

/-- A value stored under one key of the `statistics` record: the CSV/JSON
analyzers store stats records (possibly the empty `{}`), the TXT analyzer
stores plain numbers. -/
inductive StatVal where
  | statsRec (s : Option Stats)
  | numVal (q : ℚ)
deriving DecidableEq

/-- The fields an analyzer can contribute (spread over the base record by
`analyzeFile`); `none` is an absent key. -/
structure PartialResult where
  summary : String
  rowCount : Option ℕ
  columnCount : Option ℕ
  headers : Option (List String)
  dataTypes : Option (List (String × String))
  sampleData : Option (List JSON)
  statistics : Option (List (String × StatVal))
  recommendations : Option (List String)

/-! ## CSV analyzer -/

/-- The positional raw values of one CSV column over the data lines:
`line.split(",")[index]?.trim()` (`none` when the row is too short). -/
def csvColumnRaw (dataLines : List String) (index : ℕ) : List (Option String) :=
  dataLines.map (fun line => ((jsSplit (',') line).get? index).map jsTrim)

/-- The parsed numeric values of one CSV column:
`parseFloat(...)` over all rows, dropping NaN. -/
def csvColumnNums (dataLines : List String) (index : ℕ) : List ℚ :=
  (csvColumnRaw dataLines index).filterMap (fun o => o.bind jsParseFloat)

/-- The early return of `analyzeCSV` when no line survives the blank filter. -/
def emptyCSVPartial : PartialResult :=
  { summary := "Empty CSV file detected."
    rowCount := some 0
    columnCount := some 0
    headers := none
    dataTypes := none
    sampleData := none
    statistics := none
    recommendations := none }

/-- The main path of `analyzeCSV`, on the surviving header and data lines. -/
def analyzeCSVNonempty (headerLine : String) (dataLines : List String) :
    PartialResult :=
    let headers := (jsSplit (',') headerLine).map jsTrim
    let columnCount := headers.length
    let rowCount := dataLines.length
    let sampleData := (dataLines.take 5).map (fun line =>
      let values := (jsSplit (',') line).map jsTrim
      JSON.obj (headers.enum.foldl
        (fun obj p => aset obj p.2 (JSON.str (values.getD p.1 ("")))) []))
    let dataTypes := headers.enum.foldl
      (fun dt p => aset dt p.2 (detectDataType
        ((csvColumnRaw dataLines p.1).map (fun o => o.map JSON.str)))) []
    let statistics := headers.enum.foldl
      (fun st p =>
        if aget dataTypes p.2 = some ("number") then
          aset st p.2 (StatVal.statsRec (calculateStatistics
            (csvColumnNums dataLines p.1)))
        else st) []
    let numericCount := ((dataTypes.map Prod.fst).filter
      (fun k => aget dataTypes k == some ("number"))).length
    { summary := "CSV file with " ++ Nat.repr rowCount ++ " rows and " ++
        Nat.repr columnCount ++ " columns. Contains " ++ Nat.repr numericCount ++
        " numeric columns suitable for analysis."
      rowCount := some rowCount
      columnCount := some columnCount
      headers := some headers
      dataTypes := some dataTypes
      sampleData := some sampleData
      statistics := some statistics
      recommendations := some (generateRecommendations dataTypes rowCount) }

/-- `analyzeCSV`: drop blank lines, early-return on zero lines, else analyze
header and data lines. -/
def analyzeCSV (content : String) : PartialResult :=
  match (jsSplit ('\n') content).filter (fun line => jsTrim line != ("")) with
  | [] => emptyCSVPartial
  | headerLine :: dataLines => analyzeCSVNonempty headerLine dataLines

/-! ## JSON analyzer -/

/-- The fixed record of the null / non-object early return. -/
def invalidJSONResult : PartialResult :=
  { summary := "Empty or invalid JSON file."
    rowCount := none
    columnCount := none
    headers := none
    dataTypes := none
    sampleData := none
    statistics := none
    recommendations := some [("Check the JSON format and try again"),
      ("Ensure the file contains valid JSON data")] }

/-- One JSON column: `content.map(item => item[header])`; `none` is the
`TypeError` thrown when some element is `null`. -/
def colOf (xs : List JSON) (h : String) : Option (List (Option JSON)) :=
  xs.mapM (fun item => jget item h)

/-- The common tail of `analyzeJSON`: data types per header, statistics for
the numeric ones, summary and recommendations. -/
def mkJSONPartial (rowCount : ℕ) (sampleData : List JSON)
    (headers : List String) (cols : String → List (Option JSON)) :
    PartialResult :=
  let columnCount := headers.length
  let dataTypes := headers.foldl
    (fun dt h => aset dt h (detectDataType (cols h))) []
  let statistics := headers.foldl
    (fun st h =>
      if aget dataTypes h = some ("number") then
        aset st h (StatVal.statsRec (calculateStatistics
          ((cols h).filterMap (fun ov =>
            match ov with
            | none => none
            | some v => jsParseFloat (jsToString v)))))
      else st) []
  let numericCount := ((dataTypes.map Prod.fst).filter
    (fun k => aget dataTypes k == some ("number"))).length
  { summary := "JSON file with " ++ Nat.repr rowCount ++ " records and " ++
      Nat.repr columnCount ++ " fields. Contains " ++ Nat.repr numericCount ++
      " numeric fields suitable for analysis."
    rowCount := some rowCount
    columnCount := some columnCount
    headers := some headers
    dataTypes := some dataTypes
    sampleData := some sampleData
    statistics := some statistics
    recommendations := some (generateRecommendations dataTypes rowCount) }

/-- `analyzeJSON`.  The outer `none` is a thrown `TypeError`
(`Object.keys(null)` when the first array element is `null`, or
`item[header]` on a `null` element). -/
def analyzeJSON (content : JSON) : Option PartialResult :=
  if jsFalsy content || !(jsTypeofObject content) then some invalidJSONResult
  else
    match content with
    | JSON.arr xs =>
      let info : Option (List String × List (String × List (Option JSON))) :=
        match xs with
        | [] => some ([], [])
        | x0 :: _ =>
          if jsTypeofObject x0 then
            match jkeys x0 with
            | none => none
            | some hs =>
              (hs.mapM (fun h => (colOf xs h).map (fun col => (h, col)))).map
                (fun cols => (hs, cols))
          else some ([], [])
      info.map (fun p =>
        mkJSONPartial xs.length (xs.take 5) p.1 (fun h => (aget p.2 h).getD []))
    | j =>
      (jkeys j).map (fun hs =>
        mkJSONPartial 1 [j] hs (fun h => [(jget j h).getD none]))

/-! ## TXT analyzer -/

/-- Number of maximal non-whitespace runs:
`content.split(/\s+/).filter(w => w.trim() !== "").length`. -/
def countWordsAux : List Char → Bool → ℕ
  | [], _ => 0
  | c :: cs, inWord =>
    if jsWs c then countWordsAux cs false
    else (if inWord then 0 else 1) + countWordsAux cs true

/-- Word count of the whole content. -/
def countWords (s : String) : ℕ := countWordsAux s.data false

/-- `(line.match(/\t/g) || []).length`. -/
def tabCount (line : String) : ℕ :=
  (line.data.filter (fun c => c == ('\t'))).length

/-- `analyzeTXT`.  `none` models the `TypeError` thrown on empty content:
with zero surviving lines `isTabular` is vacuously `true` and
`lines[0].split("\t")` dereferences `undefined`. -/
def analyzeTXT (content : String) : Option PartialResult :=
  let lines := (jsSplit ('\n') content).filter (fun line => jsTrim line != (""))
  let wordCount := countWords content
  let charCount := content.data.length
  let isTabular := lines.all (fun line =>
    decide (0 < tabCount line) && (tabCount line == tabCount (lines.headD (""))))
  let statistics := [(("wordCount"), StatVal.numVal (wordCount : ℚ)),
    (("charCount"), StatVal.numVal (charCount : ℚ)),
    (("avgWordsPerLine"), StatVal.numVal ((wordCount : ℚ) /
      (if lines.length = 0 then 1 else (lines.length : ℚ))))]
  let tabSummary := "Text file with " ++ Nat.repr lines.length ++
    " rows that appears to be tab-delimited. Contains approximately " ++
    Nat.repr wordCount ++ " words."
  let unstructSummary := "Unstructured text file with " ++
    Nat.repr lines.length ++ " lines and " ++ Nat.repr wordCount ++ " words."
  match lines with
  | [] => none
  | l0 :: _ =>
    if isTabular then
      some
        { summary := tabSummary
          rowCount := some lines.length
          columnCount := some (jsSplit ('\t') l0).length
          headers := none
          dataTypes := none
          sampleData := none
          statistics := some statistics
          recommendations := some [("Convert to CSV format for better analysis"),
            ("Use text classification algorithms for content analysis"),
            ("Consider natural language processing for text extraction")] }
    else
      some
        { summary := unstructSummary
          rowCount := some lines.length
          columnCount := none
          headers := none
          dataTypes := none
          sampleData := none
          statistics := some statistics
          recommendations := some [("Use natural language processing algorithms"),
            ("Consider sentiment analysis for text content"),
            ("Text clustering may reveal patterns in the content")] }

/-! ## Loader and dispatcher -/

/-- `Array.prototype.pop` on a list of tokens (the default is never used:
`split` always returns at least one token). -/
def lastTokenD (l : List (List Char)) (d : List Char) : List Char :=
  match l with
  | [] => d
  | [x] => x
  | _ :: xs => lastTokenD xs d

/-- `getFileType`: `file.name.split(".").pop()?.toLowerCase() || ""`. -/
def getFileType (name : String) : String :=
  jsToLower (String.mk (lastTokenD (splitCh ('.') name.data) []))

/-- `toFixed(2)` followed by `parseFloat` (which strips trailing zeros). -/
def toFixed2Trim (q : ℚ) : String :=
  let n := (round (q * 100) : ℤ).toNat
  let ip := n / 100
  let fr := n % 100
  if fr = 0 then Nat.repr ip
  else if fr % 10 = 0 then Nat.repr ip ++ (".") ++ Nat.repr (fr / 10)
  else Nat.repr ip ++ (".") ++ (if fr < 10 then ("0") else ("")) ++ Nat.repr fr

/-- `formatFileSize`; `Math.floor(Math.log(bytes) / Math.log(1024))` is the
exact base-1024 logarithm floor; indices past `GB` concatenate the literal
string `"undefined"` exactly as JavaScript does. -/
def formatFileSize (bytes : ℕ) : String :=
  if bytes = 0 then "0 Bytes"
  else
    let i := Nat.log 1024 bytes
    toFixed2Trim ((bytes : ℚ) / ((1024 : ℚ) ^ i)) ++ (" ") ++
      ([("Bytes"), ("KB"), ("MB"), ("GB")].getD i ("undefined"))

/-- The `json` branch of `readFileContent`: `JSON.parse` outcome with a parse
failure (`none`) swallowed into the empty object. -/
def readJSONContent (parsed : Option JSON) : JSON :=
  parsed.getD (JSON.obj [])

/-- The record `analyzeFile` returns (base fields plus the analyzer's
contribution). -/
structure AnalysisResult where
  summary : String
  fileType : String
  fileSize : String
  rowCount : Option ℕ
  columnCount : Option ℕ
  headers : Option (List String)
  dataTypes : Option (List (String × String))
  sampleData : Option (List JSON)
  statistics : Option (List (String × StatVal))
  recommendations : List String

/-- The object spread `{ ...result, ...analyzerPartial }` over the base
record `{summary: "", fileType, fileSize, recommendations: []}`. -/
def mergeResult (fileType fileSize : String) (p : PartialResult) :
    AnalysisResult :=
  { summary := p.summary
    fileType := fileType
    fileSize := fileSize
    rowCount := p.rowCount
    columnCount := p.columnCount
    headers := p.headers
    dataTypes := p.dataTypes
    sampleData := p.sampleData
    statistics := p.statistics
    recommendations := p.recommendations.getD [] }

/-- The fixed `xlsx` branch. -/
def xlsxPartial : PartialResult :=
  { summary := "Excel file detected. Basic metadata analysis available."
    rowCount := none
    columnCount := none
    headers := none
    dataTypes := none
    sampleData := none
    statistics := none
    recommendations := some
      [("Consider converting to CSV for more detailed analysis"),
       ("Use Random Forest algorithm for classification tasks"),
       ("Export as graph visualization for better insights")] }

/-- The fixed default branch. -/
def unsupportedPartial : PartialResult :=
  { summary := "Unsupported file format. Limited analysis available."
    rowCount := none
    columnCount := none
    headers := none
    dataTypes := none
    sampleData := none
    statistics := none
    recommendations := some [("Convert to a supported format (CSV, JSON, TXT)")] }

/-- `analyzeFile`: extension, human size, read (with the JSON-parse outcome
passed in as the oracle for `JSON.parse`), dispatch, merge.  `none` is a
thrown error (only the TXT and JSON analyzers can throw). -/
def analyzeFile (name : String) (size : ℕ) (text : String)
    (parsed : Option JSON) : Option AnalysisResult :=
  let fileType := getFileType name
  let fileSize := formatFileSize size
  let partRes : Option PartialResult :=
    if fileType = ("csv") then some (analyzeCSV text)
    else if fileType = ("json") then analyzeJSON (readJSONContent parsed)
    else if fileType = ("txt") then analyzeTXT text
    else if fileType = ("xlsx") then some xlsxPartial
    else some unsupportedPartial
  partRes.map (mergeResult fileType fileSize)

/-! ## Result generation (`resultGenerator.ts`) -/

/-- `getAlgorithmName`. -/
def getAlgorithmName (algorithmId : String) : String :=
  if algorithmId = ("linear-regression") then "Linear Regression"
  else if algorithmId = ("decision-tree") then "Decision Tree"
  else if algorithmId = ("k-means") then "K-Means Clustering"
  else if algorithmId = ("neural-network") then "Neural Network"
  else if algorithmId = ("random-forest") then "Random Forest"
  else if algorithmId = ("xgboost") then "XGBoost"
  else if algorithmId = ("time-series") then "ARIMA"
  else "Analysis"

/-- The output configuration consumed by the generator (`outputConfig` is an
untyped object in the source; the booleans are the truthiness of
`options?.includeGraphs` / `options?.includeData`). -/
structure OutputConfig where
  format : Option String
  includeGraphs : Bool
  includeData : Bool
  textFormat : Option String
  dataFormat : Option String

/-- `x || d` for an optional string (absent and empty both fall back). -/
def jsStrOr (o : Option String) (d : String) : String :=
  match o with
  | some s => if s = ("") then d else s
  | none => d

/-- `${x || "unknown"}` for an optional count (`0` is falsy). -/
def jsNumOr (o : Option ℕ) (d : String) : String :=
  match o with
  | some n => if n = 0 then d else Nat.repr n
  | none => d

/-- Approximate square root for the printed `stdDev` (the double `Math.sqrt`
and its shortest-round-trip printing cannot be represented exactly over `ℚ`;
no theorem inspects this string). -/
def ratSqrtApprox (q : ℚ) : ℚ :=
  if q ≤ 0 then 0
  else ((Nat.sqrt ((q * 10 ^ 30).floor.toNat) : ℚ) / 10 ^ 15)

/-- The printed value of one stats-record field. -/
def statsEntryStrings (s : Stats) : List String :=
  [("min: ") ++ numToString s.min,
   ("max: ") ++ numToString s.max,
   ("mean: ") ++ numToString s.mean,
   ("median: ") ++ numToString s.median,
   ("stdDev: ") ++ numToString (ratSqrtApprox s.variance),
   ("count: ") ++ Nat.repr s.count]

/-- The `Object.entries(stats)` line of the technical format. -/
def statLineString (p : String × StatVal) : String :=
  ("- ") ++ p.1 ++ (": ") ++
    (match p.2 with
     | StatVal.statsRec (some s) => String.intercalate (", ") (statsEntryStrings s)
     | StatVal.statsRec none => ""
     | StatVal.numVal q => numToString q) ++ ("\n")

/-- `generateTextResult`. -/
def generateTextResult (fileAnalysis : AnalysisResult) (algorithmId : String)
    (outputConfig : OutputConfig) : String :=
  let algorithmName := getAlgorithmName algorithmId
  let textFormat := jsStrOr outputConfig.textFormat ("detailed")
  if textFormat = ("summary") then
    ("The ") ++ algorithmName ++ (" algorithm was applied to the ") ++
      jsToUpper fileAnalysis.fileType ++ (" file containing ") ++
      jsNumOr fileAnalysis.rowCount ("unknown") ++
      (" records. The analysis identified key patterns in the data that can be used for prediction and decision-making.")
  else if textFormat = ("technical") then
    ("## ") ++ algorithmName ++ (" Technical Analysis\n\n") ++
      ("**File Information:**\n- Type: ") ++ jsToUpper fileAnalysis.fileType ++
      ("\n- Size: ") ++ fileAnalysis.fileSize ++
      ("\n- Records: ") ++ jsNumOr fileAnalysis.rowCount ("N/A") ++
      ("\n- Fields: ") ++ jsNumOr fileAnalysis.columnCount ("N/A") ++ ("\n\n") ++
      ("**Data Types:**\n") ++
      String.join (((fileAnalysis.dataTypes.getD []).map
        (fun p => ("- ") ++ p.1 ++ (": ") ++ p.2 ++ ("\n")))) ++
      ("\n**Statistical Summary:**\n") ++
      String.join ((fileAnalysis.statistics.getD []).map statLineString)
  else
    ("# ") ++ algorithmName ++ (" Analysis Results\n\n") ++
      ("The analysis was performed on a ") ++ jsToUpper fileAnalysis.fileType ++
      (" file containing ") ++ jsNumOr fileAnalysis.rowCount ("unknown") ++
      (" records and ") ++ jsNumOr fileAnalysis.columnCount ("unknown") ++
      (" fields.\n\n") ++
      ("## Key Findings\n\n") ++
      ("- The data shows significant patterns that can be leveraged for predictive modeling\n") ++
      ("- Several outliers were identified that may require further investigation\n") ++
      ("- The model achieved good performance metrics on the provided dataset\n\n") ++
      ("## Recommendations\n\n") ++
      (if fileAnalysis.recommendations.length > 0 then
        String.join (fileAnalysis.recommendations.map
          (fun rec => ("- ") ++ rec ++ ("\n")))
      else ("- No specific recommendations available for this dataset\n"))

/-- The chart data structure produced by `generateGraphData`. -/
structure GraphData where
  type : String
  data : List ℚ
  labels : List String
  title : String
  series : Option (List (String × List ℚ))

/-- `stats?.mean || 0` — the mean of a stats record, `0` for anything else. -/
def statMeanOrZero (v : Option StatVal) : ℚ :=
  match v with
  | some (StatVal.statsRec (some s)) => s.mean
  | _ => 0

/-- `stats?.max || 0`. -/
def statMaxOrZero (v : Option StatVal) : ℚ :=
  match v with
  | some (StatVal.statsRec (some s)) => s.max
  | _ => 0

/-- `stats?.min || 0`. -/
def statMinOrZero (v : Option StatVal) : ℚ :=
  match v with
  | some (StatVal.statsRec (some s)) => s.min
  | _ => 0

/-- `generateGraphData`. -/
def generateGraphData (fileAnalysis : AnalysisResult) (algorithmId : String) :
    GraphData :=
  let base : GraphData :=
    { type := "bar"
      data := []
      labels := []
      title := getAlgorithmName algorithmId ++ (" Results")
      series := none }
  match fileAnalysis.statistics with
  | none => base
  | some st =>
    let numericFields := st.map Prod.fst
    if numericFields.length = 0 then base
    else
      { base with
        labels := numericFields
        data := numericFields.map (fun f => statMeanOrZero (aget st f))
        series := some
          [(("Mean"), numericFields.map (fun f => statMeanOrZero (aget st f))),
           (("Max"), numericFields.map (fun f => statMaxOrZero (aget st f))),
           (("Min"), numericFields.map (fun f => statMinOrZero (aget st f)))] }

/-- The own enumerable properties copied by the object spread `{...item}`. -/
def spreadFields : JSON → List (String × JSON)
  | JSON.obj fs => fs
  | JSON.arr xs => (xs.enum).map (fun p => (Nat.repr p.1, p.2))
  | JSON.str s => (s.data.enum).map (fun p => (Nat.repr p.1, JSON.str (String.mk [p.2])))
  | _ => []

/-- The algorithm-specific fields added to one sample row; `r1`, `r2` are the
values drawn from `Math.random()` for this row. -/
def processItem (algorithmId : String) (item : JSON) (r1 r2 : ℚ) : JSON :=
  let base := spreadFields item
  if algorithmId = ("linear-regression") then
    JSON.obj (aset (aset base ("predicted_value") (JSON.num (r1 * 100)))
      ("error") (JSON.num (r2 * 10)))
  else if algorithmId = ("decision-tree") ∨ algorithmId = ("random-forest") then
    JSON.obj (aset (aset base ("classification")
        (JSON.str (if r1 > 1/2 then "Category A" else "Category B")))
      ("confidence") (JSON.num (1/2 + r2 * (1/2))))
  else if algorithmId = ("k-means") then
    JSON.obj (aset (aset base ("cluster") (JSON.num (((r1 * 3).floor : ℤ) + 1 : ℤ)))
      ("distance_to_centroid") (JSON.num (r2 * 5)))
  else JSON.obj base

/-- The structure produced by `generateDataOutput`. -/
structure DataOutput where
  format : String
  data : List JSON
  algorithm : String
  processedAt : String
  rowCount : ℕ

/-- `generateDataOutput`; `rand` is the `Math.random()` oracle (draw `2*i`
and `2*i+1` feed row `i`), `timestamp` the `new Date().toISOString()`
value. -/
def generateDataOutput (fileAnalysis : AnalysisResult) (algorithmId : String)
    (outputConfig : OutputConfig) (rand : ℕ → ℚ) (timestamp : String) :
    DataOutput :=
  let dataFormat := jsStrOr outputConfig.dataFormat ("json")
  let baseData := fileAnalysis.sampleData.getD []
  let processedData := (baseData.enum).map
    (fun p => processItem algorithmId p.2 (rand (2 * p.1)) (rand (2 * p.1 + 1)))
  { format := dataFormat
    data := processedData
    algorithm := getAlgorithmName algorithmId
    processedAt := timestamp
    rowCount := processedData.length }

/-- The content of one generated result. -/
inductive ResultContent where
  | text (s : String)
  | graph (g : GraphData)
  | dataOut (d : DataOutput)

/-- One element of the list returned by `generateResults`. -/
structure ResultRec where
  id : String
  title : String
  type : String
  content : ResultContent
  timestamp : String

/-- `generateResults`; `rand` is the `Math.random()` oracle, `now` the
`Date.now()` value and `timestamp` the `new Date().toISOString()` value. -/
def generateResults (fileAnalysis : Option AnalysisResult)
    (algorithmId : String) (outputConfig : OutputConfig) (rand : ℕ → ℚ)
    (now : ℕ) (timestamp : String) : List ResultRec :=
  match fileAnalysis with
  | none => []
  | some fa =>
    let format := jsStrOr outputConfig.format ("text")
    [{ id := ("text-") ++ Nat.repr now
       title := getAlgorithmName algorithmId ++ (" Analysis Results")
       type := "text"
       content := ResultContent.text (generateTextResult fa algorithmId outputConfig)
       timestamp := timestamp }] ++
    (if format = ("graph") ∨ outputConfig.includeGraphs then
      [{ id := ("graph-") ++ Nat.repr now
         title := getAlgorithmName algorithmId ++ (" Visualization")
         type := "graph"
         content := ResultContent.graph (generateGraphData fa algorithmId)
         timestamp := timestamp }]
    else []) ++
    (if format = ("data") ∨ outputConfig.includeData then
      [{ id := ("data-") ++ Nat.repr now
         title := getAlgorithmName algorithmId ++ (" Data Output")
         type := "data"
         content := ResultContent.dataOut
           (generateDataOutput fa algorithmId outputConfig rand timestamp)
         timestamp := timestamp }]
    else []) ++
    (if format = ("audio") then
      [{ id := ("audio-") ++ Nat.repr now
         title := getAlgorithmName algorithmId ++ (" Audio Summary")
         type := "audio"
         content := ResultContent.text ("audio-content-placeholder")
         timestamp := timestamp }]
    else []) ++
    (if format = ("video") then
      [{ id := ("video-") ++ Nat.repr now
         title := getAlgorithmName algorithmId ++ (" Video Presentation")
         type := "video"
         content := ResultContent.text ("video-content-placeholder")
         timestamp := timestamp }]
    else [])

/-! ## Specification-side definitions

These definitions follow the wording of the specification (not the source)
and are used to state the claims against the embedded code. -/

/-- The keys of the `statistics` record ( `[]` when the key is absent). -/
def statisticsKeys (r : AnalysisResult) : List String :=
  (r.statistics.getD []).map Prod.fst

/-- The headers whose `dataTypes` entry is `"number"`. -/
def numericHeaders (r : AnalysisResult) : List String :=
  ((r.dataTypes.getD []).filter (fun p => p.2 = ("number"))).map Prod.fst

/-- The midpoint of an ascending-sorted sequence: the average of the two
central elements for an even count, the central element otherwise. -/
def medianOfSorted (m : List ℚ) : ℚ :=
  if m.length % 2 = 0 then
    (m.getD (m.length / 2 - 1) 0 + m.getD (m.length / 2) 0) / 2
  else m.getD (m.length / 2) 0

/-- The data-type tallies driving the recommendation rules. -/
structure TypeCounts where
  numeric : ℕ
  categorical : ℕ
  date : ℕ
deriving DecidableEq

/-- Tallies of the `dataTypes` map values. -/
def countTypes (dataTypes : List (String × String)) : TypeCounts :=
  { numeric := ((dataTypes.map Prod.snd).filter (fun t => t = ("number"))).length
    categorical := ((dataTypes.map Prod.snd).filter
      (fun t => t = ("string") ∨ t = ("boolean"))).length
    date := ((dataTypes.map Prod.snd).filter (fun t => t = ("date"))).length }

/-- The recommendation engine as the specification describes it: a fixed
ordered table of independent rules, each contributing zero or one string. -/
def specRecommendationRules : List (TypeCounts → ℕ → Option String) :=
  [fun c _ => if c.numeric > 0 ∧ c.categorical > 0 then some recRandomForest else none,
   fun c _ => if c.numeric > 3 then some recPCA else none,
   fun c _ => if c.categorical > c.numeric then some recDecisionTree else none,
   fun c _ => if c.date > 0 then some recTimeSeries else none,
   fun _ rowCount => if rowCount > 1000 then some recXGBoost
     else if rowCount < 100 then some recKNN else none,
   fun c _ => if c.numeric > 3 then some recGraphViz
     else if c.numeric > 0 then some recBarCharts else none,
   fun c _ => if c.categorical > 0 then some recPieCharts else none]

/-- A string that starts with a date-shaped prefix: four digits, a
separator, one or two digits, a separator, one or two digits, then anything
at all. -/
def DatePrefixShape (cs : List Char) : Prop :=
  ∃ (y m d rest : List Char) (s1 s2 : Char),
    cs = y ++ s1 :: (m ++ s2 :: (d ++ rest)) ∧
    y.length = 4 ∧ (∀ c ∈ y, c.isDigit = true) ∧ sepB s1 = true ∧
    m ≠ [] ∧ m.length ≤ 2 ∧ (∀ c ∈ m, c.isDigit = true) ∧ sepB s2 = true ∧
    d ≠ [] ∧ d.length ≤ 2 ∧ (∀ c ∈ d, c.isDigit = true)

/-- A string that is exactly date-shaped with a trailing year: one or two
digits, a separator, one or two digits, a separator, two to four digits. -/
def DateSuffixShape (cs : List Char) : Prop :=
  ∃ (a b y : List Char) (s1 s2 : Char),
    cs = a ++ s1 :: (b ++ s2 :: y) ∧
    a ≠ [] ∧ a.length ≤ 2 ∧ (∀ c ∈ a, c.isDigit = true) ∧ sepB s1 = true ∧
    b ≠ [] ∧ b.length ≤ 2 ∧ (∀ c ∈ b, c.isDigit = true) ∧ sepB s2 = true ∧
    2 ≤ y.length ∧ y.length ≤ 4 ∧ (∀ c ∈ y, c.isDigit = true)

/-! ## Helper lemmas -/

/-- A key of `aset m k v` is a key of `m` or is `k`. -/
theorem mem_keys_aset {α : Type} (m : List (String × α)) (k : String) (v : α)
    (k' : String) (h : k' ∈ (aset m k v).map Prod.fst) :
    k' ∈ m.map Prod.fst ∨ k' = k := by
  unfold aset at h
  split at h
  · rcases List.mem_map.mp h with ⟨p, hp, hfst⟩
    rcases List.mem_map.mp hp with ⟨q, hq, rfl⟩
    by_cases hqk : q.1 == k
    · right
      rw [if_pos hqk] at hfst
      exact hfst.symm
    · left
      rw [if_neg hqk] at hfst
      exact List.mem_map.mpr ⟨q, hq, hfst⟩
  · rw [List.map_append] at h
    rcases List.mem_append.mp h with h1 | h1
    · exact Or.inl h1
    · right
      simpa using h1

/-- Every key of the statistics fold is typed `"number"` in `dt`: the fold
only ever assigns under that guard. -/
theorem statsFoldMem {β : Type} (dt : List (String × String)) (key : β → String)
    (f : β → StatVal) :
    ∀ (l : List β) (init : List (String × StatVal)),
      (∀ k, k ∈ init.map Prod.fst → aget dt k = some ("number")) →
      ∀ k, k ∈ (l.foldl (fun st b =>
          if aget dt (key b) = some ("number") then aset st (key b) (f b) else st)
        init).map Prod.fst →
        aget dt k = some ("number") := by
  intro l
  induction l with
  | nil => intro init hinit k hk; exact hinit k hk
  | cons b t ih =>
    intro init hinit k hk
    rw [List.foldl_cons] at hk
    refine ih _ ?_ k hk
    intro k' hk'
    by_cases hg : aget dt (key b) = some ("number")
    · rw [if_pos hg] at hk'
      rcases mem_keys_aset _ _ _ _ hk' with h1 | rfl
      · exact hinit k' h1
      · exact hg
    · rw [if_neg hg] at hk'
      exact hinit k' hk'

/-- A key read as `"number"` from the map is one of the numeric headers. -/
theorem aget_number_mem {dt : List (String × String)} {k : String}
    (h : aget dt k = some ("number")) :
    k ∈ ((dt.filter (fun p => p.2 = ("number"))).map Prod.fst) := by
  unfold aget at h
  rcases Option.map_eq_some'.mp h with ⟨p, hfind, hsnd⟩
  have hmem := List.mem_of_find?_eq_some hfind
  have hbeq := List.find?_some hfind
  have hfst : p.1 = k := by simpa using hbeq
  refine List.mem_map.mpr ⟨p, ?_, hfst⟩
  refine List.mem_filter.mpr ⟨hmem, ?_⟩
  simpa using hsnd

/-- Unfolding equation for `splitCh` at a cons cell, given the split of the
tail. -/
theorem splitCh_cons_eq (c x : Char) (xs r : List Char) (rs : List (List Char))
    (h : splitCh c xs = r :: rs) :
    splitCh c (x :: xs) = if x == c then [] :: r :: rs else (x :: r) :: rs := by
  show (match splitCh c xs with
    | [] => [[]]
    | r :: rs => if x == c then [] :: r :: rs else (x :: r) :: rs) = _
  rw [h]

/-- `splitCh` never returns the empty list. -/
theorem splitCh_ne_nil (c : Char) (l : List Char) : splitCh c l ≠ [] := by
  induction l with
  | nil => exact fun h => List.noConfusion h
  | cons x xs ih =>
    rcases h : splitCh c xs with _ | ⟨r, rs⟩
    · exact absurd h ih
    · rw [splitCh_cons_eq c x xs r rs h]
      split <;> simp

/-- The number of tokens is the number of separators plus one. -/
theorem splitCh_length (c : Char) (l : List Char) :
    (splitCh c l).length = l.count c + 1 := by
  induction l with
  | nil => simp [splitCh]
  | cons x xs ih =>
    rcases h : splitCh c xs with _ | ⟨r, rs⟩
    · exact absurd h (splitCh_ne_nil c xs)
    · rw [splitCh_cons_eq c x xs r rs h]
      rw [h] at ih
      by_cases hxc : x = c
      · subst hxc
        rw [if_pos (by simp)]
        simp only [List.count_cons_self]
        simpa using ih
      · rw [if_neg (by simpa using hxc)]
        simp only [List.count_cons_of_ne (Ne.symm hxc)]
        simpa using ih

/-- Splitting a string that avoids the separator yields that string alone. -/
theorem splitCh_of_not_mem (c : Char) (l : List Char) (h : c ∉ l) :
    splitCh c l = [l] := by
  induction l with
  | nil => rfl
  | cons x xs ih =>
    have hx : ¬x = c := fun hxc => h (hxc ▸ List.mem_cons_self x xs)
    have hxs : c ∉ xs := fun hc => h (List.mem_cons_of_mem x hc)
    rw [splitCh_cons_eq c x xs xs [] (ih hxs)]
    rw [if_neg (by simpa using hx)]

/-- Splitting at a leading separator prepends an empty token. -/
theorem splitCh_sep_cons (c : Char) (b : List Char) :
    splitCh c (c :: b) = [] :: splitCh c b := by
  rcases h : splitCh c b with _ | ⟨r, rs⟩
  · exact absurd h (splitCh_ne_nil c b)
  · rw [splitCh_cons_eq c c b r rs h, if_pos (by simp)]

/-- Splitting around an explicit separator concatenates the two splits. -/
theorem splitCh_append (c : Char) (a b : List Char) :
    splitCh c (a ++ c :: b) = splitCh c a ++ splitCh c b := by
  induction a with
  | nil =>
    rw [List.nil_append, splitCh_sep_cons]
    rfl
  | cons x xs ih =>
    rcases hx : splitCh c xs with _ | ⟨r0, rs0⟩
    · exact absurd hx (splitCh_ne_nil c xs)
    · have hl : splitCh c (xs ++ c :: b) = r0 :: (rs0 ++ splitCh c b) := by
        rw [ih, hx]
        rfl
      rw [List.cons_append, splitCh_cons_eq c x (xs ++ c :: b) _ _ hl,
        splitCh_cons_eq c x xs r0 rs0 hx]
      by_cases hxc : x == c
      · rw [if_pos hxc, if_pos hxc]
        rfl
      · rw [if_neg hxc, if_neg hxc]
        rfl

/-- `pop` of a list extended on the left by a nonempty tail. -/
theorem lastTokenD_append_cons (l1 : List (List Char)) (y : List Char)
    (ys : List (List Char)) (d : List Char) :
    lastTokenD (l1 ++ y :: ys) d = lastTokenD (y :: ys) d := by
  induction l1 with
  | nil => rfl
  | cons x xs ih =>
    rw [List.cons_append]
    rcases hx : xs ++ y :: ys with _ | ⟨z, zs⟩
    · exact absurd hx (by simp)
    · have step : lastTokenD (x :: z :: zs) d = lastTokenD (z :: zs) d := rfl
      rw [step, ← hx]
      exact ih

/-- `foldl` with addition accumulates the sum. -/
theorem foldl_add_eq_sum (l : List ℚ) (a : ℚ) :
    l.foldl (fun x y => x + y) a = a + l.sum := by
  induction l generalizing a with
  | nil => simp
  | cons x xs ih => simp [List.foldl_cons, ih, add_assoc]

/-- The `Math.min` fold returns an element of the list. -/
theorem foldl_min_mem (v : ℚ) (vs : List ℚ) :
    vs.foldl (fun a b => if b < a then b else a) v ∈ v :: vs := by
  induction vs generalizing v with
  | nil => simp
  | cons b t ih =>
    rw [List.foldl_cons]
    rcases List.mem_cons.mp (ih (if b < v then b else v)) with h | h
    · rw [h]
      split
      · simp
      · simp
    · simp [List.mem_cons.mpr (Or.inr (List.mem_cons.mpr (Or.inr h)))]

/-- The `Math.min` fold is a lower bound. -/
theorem foldl_min_le (v : ℚ) (vs : List ℚ) :
    ∀ x ∈ v :: vs, vs.foldl (fun a b => if b < a then b else a) v ≤ x := by
  induction vs generalizing v with
  | nil => intro x hx; simp at hx; simp [hx]
  | cons b t ih =>
    intro x hx
    rw [List.foldl_cons]
    have hminv : (if b < v then b else v) ≤ v := by split <;> simp [le_of_lt, *]
    have hminb : (if b < v then b else v) ≤ b := by
      split
      · simp
      · exact le_of_not_lt (by assumption)
    rcases List.mem_cons.mp hx with rfl | hx1
    · exact le_trans (ih _ _ (List.mem_cons_self _ _)) hminv
    · rcases List.mem_cons.mp hx1 with rfl | hx2
      · exact le_trans (ih _ _ (List.mem_cons_self _ _)) hminb
      · exact ih _ _ (List.mem_cons_of_mem _ hx2)

/-- The `Math.max` fold returns an element of the list. -/
theorem foldl_max_mem (v : ℚ) (vs : List ℚ) :
    vs.foldl (fun a b => if a < b then b else a) v ∈ v :: vs := by
  induction vs generalizing v with
  | nil => simp
  | cons b t ih =>
    rw [List.foldl_cons]
    rcases List.mem_cons.mp (ih (if v < b then b else v)) with h | h
    · rw [h]
      split
      · simp
      · simp
    · simp [List.mem_cons.mpr (Or.inr (List.mem_cons.mpr (Or.inr h)))]

/-- The `Math.max` fold is an upper bound. -/
theorem foldl_max_le (v : ℚ) (vs : List ℚ) :
    ∀ x ∈ v :: vs, x ≤ vs.foldl (fun a b => if a < b then b else a) v := by
  induction vs generalizing v with
  | nil => intro x hx; simp at hx; simp [hx]
  | cons b t ih =>
    intro x hx
    rw [List.foldl_cons]
    have hmaxv : v ≤ (if v < b then b else v) := by split <;> simp [le_of_lt, *]
    have hmaxb : b ≤ (if v < b then b else v) := by
      split
      · simp
      · exact le_of_not_lt (by assumption)
    rcases List.mem_cons.mp hx with rfl | hx1
    · exact le_trans hmaxv (ih _ _ (List.mem_cons_self _ _))
    · rcases List.mem_cons.mp hx1 with rfl | hx2
      · exact le_trans hmaxb (ih _ _ (List.mem_cons_self _ _))
      · exact ih _ _ (List.mem_cons_of_mem _ hx2)

/-! ## Characterization of the date matcher -/

/-- `sepThen` succeeds exactly on a separator followed by an accepted tail. -/
theorem sepThen_iff (k : List Char → Bool) (cs : List Char) :
    sepThen k cs = true ↔
      ∃ c0 rest, cs = c0 :: rest ∧ sepB c0 = true ∧ k rest = true := by
  cases cs with
  | nil =>
    constructor
    · intro h; exact Bool.noConfusion h
    · rintro ⟨c0, rest, heq, _, _⟩; exact List.noConfusion heq
  | cons a r =>
    show (sepB a && k r) = true ↔ _
    rw [Bool.and_eq_true]
    constructor
    · rintro ⟨h1, h2⟩; exact ⟨a, r, rfl, h1, h2⟩
    · rintro ⟨c0, rest, heq, h1, h2⟩
      injection heq with e1 e2
      subst e1; subst e2
      exact ⟨h1, h2⟩

/-- `tail1or2` succeeds exactly on one or two digits followed by an accepted
tail. -/
theorem tail1or2_iff (k : List Char → Bool) (cs : List Char) :
    tail1or2 k cs = true ↔
      ∃ ds rest, cs = ds ++ rest ∧ ds ≠ [] ∧ ds.length ≤ 2 ∧
        (∀ c ∈ ds, c.isDigit = true) ∧ k rest = true := by
  constructor
  · intro h
    rcases cs with _ | ⟨a, _ | ⟨b, r2⟩⟩
    · exact Bool.noConfusion h
    · have h' : (Char.isDigit a && k []) = true := h
      simp only [Bool.and_eq_true] at h'
      exact ⟨[a], [], rfl, by simp, by simp, by simpa using h'.1, h'.2⟩
    · have h' : (Char.isDigit a && (k (b :: r2) || (Char.isDigit b && k r2))) = true := h
      simp only [Bool.and_eq_true, Bool.or_eq_true] at h'
      rcases h' with ⟨hda, hk | ⟨hdb, hk2⟩⟩
      · exact ⟨[a], b :: r2, rfl, by simp, by simp, by simpa using hda, hk⟩
      · refine ⟨[a, b], r2, rfl, by simp, by simp, ?_, hk2⟩
        intro c hc
        rcases List.mem_cons.mp hc with rfl | hc1
        · exact hda
        · rcases List.mem_cons.mp hc1 with rfl | hc2
          · exact hdb
          · exact absurd hc2 (List.not_mem_nil c)
  · rintro ⟨ds, rest, heq, hne, hlen, hdig, hk⟩
    rcases ds with _ | ⟨x, _ | ⟨y, _ | ⟨z, t⟩⟩⟩
    · exact absurd rfl hne
    · rw [List.cons_append, List.nil_append] at heq
      subst heq
      cases rest with
      | nil =>
        show (Char.isDigit x && k []) = true
        simp only [Bool.and_eq_true]
        exact ⟨hdig x (by simp), hk⟩
      | cons b r2 =>
        show (Char.isDigit x && (k (b :: r2) || (Char.isDigit b && k r2))) = true
        simp only [Bool.and_eq_true, Bool.or_eq_true]
        exact ⟨hdig x (by simp), Or.inl hk⟩
    · rw [List.cons_append, List.cons_append, List.nil_append] at heq
      subst heq
      show (Char.isDigit x && (k (y :: rest) || (Char.isDigit y && k rest))) = true
      simp only [Bool.and_eq_true, Bool.or_eq_true]
      exact ⟨hdig x (by simp), Or.inr ⟨hdig y (by simp), hk⟩⟩
    · exfalso
      simp at hlen

/-- The year tail accepts exactly two to four digits. -/
theorem yearTail_iff (cs : List Char) :
    yearTail cs = true ↔
      (∀ c ∈ cs, c.isDigit = true) ∧ 2 ≤ cs.length ∧ cs.length ≤ 4 := by
  unfold yearTail
  simp [List.all_eq_true, and_assoc]

/-- Alternative A holds exactly on the date-shaped prefixes. -/
theorem matchA_iff (cs : List Char) : matchA cs = true ↔ DatePrefixShape cs := by
  constructor
  · intro h
    rcases cs with _ | ⟨a, _ | ⟨b, _ | ⟨c, _ | ⟨d, rest⟩⟩⟩⟩
    · exact Bool.noConfusion h
    · exact Bool.noConfusion h
    · exact Bool.noConfusion h
    · exact Bool.noConfusion h
    · have h' : (Char.isDigit a && Char.isDigit b && Char.isDigit c &&
          Char.isDigit d &&
          sepThen (tail1or2 (sepThen (tail1or2 anyTail))) rest) = true := h
      simp only [Bool.and_eq_true, and_assoc] at h'
      rcases h' with ⟨ha, hb, hc, hd, h4⟩
      rcases (sepThen_iff _ _).mp h4 with ⟨s1, r1, rfl, hs1, h5⟩
      rcases (tail1or2_iff _ _).mp h5 with ⟨m, r2, rfl, hmne, hmlen, hmdig, h6⟩
      rcases (sepThen_iff _ _).mp h6 with ⟨s2, r3, rfl, hs2, h7⟩
      rcases (tail1or2_iff _ _).mp h7 with ⟨dd, r4, rfl, hdne, hdlen, hddig, _⟩
      refine ⟨[a, b, c, d], m, dd, r4, s1, s2, rfl, by simp, ?_, hs1,
        hmne, hmlen, hmdig, hs2, hdne, hdlen, hddig⟩
      intro ch hch
      rcases List.mem_cons.mp hch with rfl | hch1
      · exact ha
      · rcases List.mem_cons.mp hch1 with rfl | hch2
        · exact hb
        · rcases List.mem_cons.mp hch2 with rfl | hch3
          · exact hc
          · rcases List.mem_cons.mp hch3 with rfl | hch4
            · exact hd
            · exact absurd hch4 (List.not_mem_nil ch)
  · rintro ⟨y, m, d, rest, s1, s2, heq, hy4, hydig, hs1, hmne, hmlen, hmdig,
      hs2, hdne, hdlen, hddig⟩
    rcases y with _ | ⟨a, _ | ⟨b, _ | ⟨c, _ | ⟨e, _ | _⟩⟩⟩⟩ <;>
      simp only [List.length] at hy4 <;> try omega
    subst heq
    show (Char.isDigit a && Char.isDigit b && Char.isDigit c &&
      Char.isDigit e &&
      sepThen (tail1or2 (sepThen (tail1or2 anyTail)))
        (s1 :: (m ++ s2 :: (d ++ rest)))) = true
    simp only [Bool.and_eq_true, and_assoc]
    refine ⟨hydig a (by simp), hydig b (by simp), hydig c (by simp),
      hydig e (by simp), ?_⟩
    refine (sepThen_iff _ _).mpr ⟨s1, _, rfl, hs1, ?_⟩
    refine (tail1or2_iff _ _).mpr ⟨m, _, rfl, hmne, hmlen, hmdig, ?_⟩
    refine (sepThen_iff _ _).mpr ⟨s2, _, rfl, hs2, ?_⟩
    exact (tail1or2_iff _ _).mpr ⟨d, rest, rfl, hdne, hdlen, hddig, rfl⟩

/-- Exact alternative B holds exactly on the date-with-trailing-year
shapes. -/
theorem exactB_iff (cs : List Char) : exactB cs = true ↔ DateSuffixShape cs := by
  constructor
  · intro h
    rcases (tail1or2_iff _ _).mp h with ⟨a, r1, rfl, hane, halen, hadig, h1⟩
    rcases (sepThen_iff _ _).mp h1 with ⟨s1, r2, rfl, hs1, h2⟩
    rcases (tail1or2_iff _ _).mp h2 with ⟨b, r3, rfl, hbne, hblen, hbdig, h3⟩
    rcases (sepThen_iff _ _).mp h3 with ⟨s2, r4, rfl, hs2, h4⟩
    rcases (yearTail_iff _).mp h4 with ⟨hydig, hy2, hy4⟩
    exact ⟨a, b, r4, s1, s2, rfl, hane, halen, hadig, hs1, hbne, hblen, hbdig,
      hs2, hy2, hy4, hydig⟩
  · rintro ⟨a, b, y, s1, s2, rfl, hane, halen, hadig, hs1, hbne, hblen, hbdig,
      hs2, hy2, hy4, hydig⟩
    refine (tail1or2_iff _ _).mpr ⟨a, _, rfl, hane, halen, hadig, ?_⟩
    refine (sepThen_iff _ _).mpr ⟨s1, _, rfl, hs1, ?_⟩
    refine (tail1or2_iff _ _).mpr ⟨b, _, rfl, hbne, hblen, hbdig, ?_⟩
    refine (sepThen_iff _ _).mpr ⟨s2, _, rfl, hs2, ?_⟩
    exact (yearTail_iff _).mpr ⟨hydig, hy2, hy4⟩

/-- Alternative B holds exactly when some suffix is date-with-year shaped. -/
theorem matchB_iff (cs : List Char) :
    matchB cs = true ↔ ∃ pre suf, cs = pre ++ suf ∧ exactB suf = true := by
  induction cs with
  | nil =>
    constructor
    · intro h; exact ⟨[], [], rfl, h⟩
    · rintro ⟨pre, suf, heq, hex⟩
      rcases List.append_eq_nil.mp heq.symm with ⟨rfl, rfl⟩
      exact hex
  | cons x r ih =>
    constructor
    · intro h
      have h' : (exactB (x :: r) || matchB r) = true := h
      rw [Bool.or_eq_true] at h'
      rcases h' with h1 | h1
      · exact ⟨[], x :: r, rfl, h1⟩
      · rcases ih.mp h1 with ⟨pre, suf, heq, hex⟩
        exact ⟨x :: pre, suf, by rw [List.cons_append, heq], hex⟩
    · rintro ⟨pre, suf, heq, hex⟩
      show (exactB (x :: r) || matchB r) = true
      rw [Bool.or_eq_true]
      cases pre with
      | nil =>
        rw [List.nil_append] at heq
        rw [heq]
        exact Or.inl hex
      | cons p ps =>
        rw [List.cons_append] at heq
        injection heq with e1 e2
        right
        exact ih.mpr ⟨ps, suf, e2, hex⟩

/-- `filterMap` over a cons as an append of the head's `toList`. -/
theorem filterMap_cons_toList {α β : Type} (f : α → Option β) (a : α)
    (l : List α) :
    List.filterMap f (a :: l) = (f a).toList ++ List.filterMap f l := by
  rcases h : f a with _ | b
  · rw [List.filterMap_cons_none h]
    rfl
  · rw [List.filterMap_cons_some h]
    rfl

/-- `toList` of a one-branch optional rule. -/
theorem toList_if (p : Prop) [Decidable p] (s : String) :
    (Option.toList (if p then some s else none)) = if p then [s] else [] := by
  split <;> rfl

/-- `toList` of a two-branch optional rule. -/
theorem toList_if2 (p q : Prop) [Decidable p] [Decidable q] (s t : String) :
    (Option.toList (if p then some s else if q then some t else none)) =
      (if p then [s] else if q then [t] else []) := by
  split_ifs <;> rfl

/-! ## Claims -/

/-- C3: type inference drops `undefined`/`null`/empty-string entries and
returns `"empty"` exactly when nothing remains; otherwise it returns the
first match in the precedence order number, date, boolean, else string — so
a column of literal `0`/`1` values is classified `"number"`, never
`"boolean"`. -/
theorem c3_detectDataType_precedence : ∀ values : List (Option JSON),
    (detectDataType values = ("empty") ↔ nonEmptyValuesOf values = []) ∧
    (nonEmptyValuesOf values ≠ [] →
      detectDataType values =
        (if (nonEmptyValuesOf values).all numberCheck then ("number")
         else if (nonEmptyValuesOf values).all dateCheck then ("date")
         else if (nonEmptyValuesOf values).all booleanCheck then ("boolean")
         else ("string"))) ∧
    ((∀ v ∈ nonEmptyValuesOf values, v = JSON.str ("0") ∨ v = JSON.str ("1")) →
      nonEmptyValuesOf values ≠ [] →
      detectDataType values = ("number")) := by
  intro values
  refine ⟨?_, ?_, ?_⟩
  · unfold detectDataType
    by_cases h : (nonEmptyValuesOf values).length = 0
    · rw [if_pos h]
      simp only [List.length_eq_zero] at h
      simp [h]
    · rw [if_neg h]
      rw [← List.length_eq_zero]
      constructor
      · intro hcontra
        split_ifs at hcontra <;> simp at hcontra
      · intro hnil
        exact absurd hnil h
  · intro hne
    unfold detectDataType
    rw [if_neg (by simpa [List.length_eq_zero] using hne)]
  · intro hvals hne
    have hall : (nonEmptyValuesOf values).all numberCheck = true := by
      rw [List.all_eq_true]
      intro v hv
      rcases hvals v hv with rfl | rfl
      · decide
      · decide
    unfold detectDataType
    rw [if_neg (by simpa [List.length_eq_zero] using hne), if_pos hall]

/-- C3 witness: a concrete column of literal `"0"`/`"1"` strings is typed
`"number"`. -/
theorem c3_witness :
    detectDataType [some (JSON.str ("0")), some (JSON.str ("1"))] = ("number") := by
  refine (c3_detectDataType_precedence
    [some (JSON.str ("0")), some (JSON.str ("1"))]).2.2 ?_ ?_
  · intro v hv
    have e : nonEmptyValuesOf [some (JSON.str ("0")), some (JSON.str ("1"))] =
        [JSON.str ("0"), JSON.str ("1")] := rfl
    rw [e] at hv
    rcases List.mem_cons.mp hv with rfl | h1
    · exact Or.inl rfl
    · rcases List.mem_cons.mp h1 with rfl | h2
      · exact Or.inr rfl
      · exact absurd h2 (List.not_mem_nil v)
  · intro h
    have e : nonEmptyValuesOf [some (JSON.str ("0")), some (JSON.str ("1"))] =
        [JSON.str ("0"), JSON.str ("1")] := rfl
    rw [e] at h
    exact List.noConfusion h

/-- C4: the recommendation engine is a pure function of the `dataTypes` map
and the row count, appending zero-or-one string per rule in the fixed order
of the specification; on four numeric columns, one string column and 50 rows
it produces exactly Random Forest, PCA, KNN, graph visualization and pie
charts, in that order. -/
theorem c4_recommendation_order :
    generateRecommendations
      [(("a"), ("number")), (("b"), ("number")), (("c"), ("number")),
       (("d"), ("number")), (("e"), ("string"))] 50 =
      [recRandomForest, recPCA, recKNN, recGraphViz, recPieCharts] ∧
    ∀ (dataTypes : List (String × String)) (rowCount : ℕ),
      generateRecommendations dataTypes rowCount =
        specRecommendationRules.filterMap
          (fun rule => rule (countTypes dataTypes) rowCount) := by
  have hgen : ∀ (dataTypes : List (String × String)) (rowCount : ℕ),
      generateRecommendations dataTypes rowCount =
        specRecommendationRules.filterMap
          (fun rule => rule (countTypes dataTypes) rowCount) := by
    intro dataTypes rowCount
    simp only [specRecommendationRules, filterMap_cons_toList,
      List.filterMap_nil, countTypes, toList_if, toList_if2, List.append_nil]
    simp only [generateRecommendations, List.append_assoc]
  refine ⟨?_, hgen⟩
  rw [hgen]
  rw [show countTypes
    [(("a"), ("number")), (("b"), ("number")), (("c"), ("number")),
     (("d"), ("number")), (("e"), ("string"))] =
    { numeric := 4, categorical := 1, date := 0 } from by decide]
  rfl

/-- C4 witness: the rule-table refinement applied at a concrete map. -/
theorem c4_witness :
    generateRecommendations [(("x"), ("date"))] 500 =
      specRecommendationRules.filterMap
        (fun rule => rule (countTypes [(("x"), ("date"))]) 500) :=
  c4_recommendation_order.2 [(("x"), ("date"))] 500

/-- C6: a CSV whose lines are all blank after trimming yields exactly the
empty-CSV record: the fixed summary, row and column counts zero, and no
headers, data types, sample data, statistics or recommendations. -/
theorem c6_empty_csv : ∀ content : String,
    (∀ l ∈ jsSplit ('\n') content, jsTrim l = ("")) →
    analyzeCSV content =
      { summary := ("Empty CSV file detected.")
        rowCount := some 0
        columnCount := some 0
        headers := none
        dataTypes := none
        sampleData := none
        statistics := none
        recommendations := none } := by
  intro content h
  unfold analyzeCSV
  have hf : (jsSplit ('\n') content).filter (fun line => jsTrim line != ("")) = [] := by
    rw [List.filter_eq_nil]
    intro a ha
    simp [h a ha]
  rw [hf]
  rfl

/-- C6 witness: the empty string is such an input. -/
theorem c6_witness :
    analyzeCSV ("") =
      { summary := ("Empty CSV file detected.")
        rowCount := some 0
        columnCount := some 0
        headers := none
        dataTypes := none
        sampleData := none
        statistics := none
        recommendations := none } :=
  c6_empty_csv ("") (by decide)

/-- C7 counterexample: the claim says a date-shaped substring with extra
trailing characters does not qualify, but `"2023-1-1x"` passes the
pattern test (the first regex alternative is only start-anchored) and a
column holding it is classified `"date"`. -/
theorem c7_counterexample :
    datePatternTest ("2023-1-1x") = true ∧
    detectDataType [some (JSON.str ("2023-1-1x"))] = ("date") :=
  ⟨by decide, by decide⟩

/-- C7 amended: the date test succeeds exactly when the string either starts
with a year-first date shape (arbitrary trailing characters allowed) or ends
with a year-last date shape (arbitrary leading characters allowed); it is
not a full-string match. -/
theorem c7_date_pattern : ∀ s : String, datePatternTest s = true ↔
    (DatePrefixShape s.data ∨
      ∃ pre suf, s.data = pre ++ suf ∧ DateSuffixShape suf) := by
  intro s
  unfold datePatternTest
  rw [Bool.or_eq_true]
  constructor
  · rintro (h | h)
    · exact Or.inl ((matchA_iff _).mp h)
    · rcases (matchB_iff _).mp h with ⟨pre, suf, heq, hex⟩
      exact Or.inr ⟨pre, suf, heq, (exactB_iff _).mp hex⟩
  · rintro (h | ⟨pre, suf, heq, hsh⟩)
    · exact Or.inl ((matchA_iff _).mpr h)
    · exact Or.inr ((matchB_iff _).mpr ⟨pre, suf, heq, (exactB_iff _).mpr hsh⟩)

/-- C7 witness: a fully date-shaped string passes the test through the
prefix alternative. -/
theorem c7_witness : datePatternTest ("2023-12-25") = true :=
  (c7_date_pattern ("2023-12-25")).mpr (Or.inl
    ⟨[('2'), ('0'), ('2'), ('3')], [('1'), ('2')], [('2'), ('5')], [],
      ('-'), ('-'), by decide, by decide, by decide, by decide, by decide,
      by decide, by decide, by decide, by decide, by decide, by decide⟩)

/-- C8: for a CSV made of a header line and data lines, none blank after
trimming, the row count is the number of data lines and the column count is
the number of comma-separated header tokens. -/
theorem c8_row_column_counts : ∀ (content headerLine : String) (rows : List String),
    jsSplit ('\n') content = headerLine :: rows →
    (∀ l ∈ headerLine :: rows, jsTrim l ≠ ("")) →
    (analyzeCSV content).rowCount = some rows.length ∧
    (analyzeCSV content).columnCount = some (headerLine.data.count (',') + 1) := by
  intro content headerLine rows hsplit hne
  unfold analyzeCSV
  have hf : (jsSplit ('\n') content).filter (fun line => jsTrim line != ("")) =
      headerLine :: rows := by
    rw [hsplit, List.filter_eq_self]
    intro a ha
    simpa using hne a ha
  rw [hf]
  constructor
  · rfl
  · have e : (analyzeCSVNonempty headerLine rows).columnCount =
        some ((jsSplit (',') headerLine).map jsTrim).length := rfl
    rw [e, List.length_map]
    unfold jsSplit
    rw [List.length_map, splitCh_length]

/-- C8 witness: a concrete two-data-line CSV. -/
theorem c8_witness :
    (analyzeCSV ("a,b\n1,2\n3,4")).rowCount =
      some ([("1,2"), ("3,4")] : List String).length ∧
    (analyzeCSV ("a,b\n1,2\n3,4")).columnCount =
      some (("a,b").data.count (',') + 1) :=
  c8_row_column_counts ("a,b\n1,2\n3,4") ("a,b") [("1,2"), ("3,4")]
    (by decide) (by decide)

/-- C9 counterexample: the claim says the extension is empty when the name
has no dot, but `"README"` yields `"readme"`, not the empty string
(`split(".").pop()` returns the whole name). -/
theorem c9_counterexample :
    getFileType ("README") = ("readme") ∧ getFileType ("README") ≠ ("") :=
  ⟨by decide, by decide⟩

/-- C9 amended: the loader's extension is the lower-cased suffix after the
last dot when the name contains a dot, and the lower-cased whole name when
it does not (empty only for the empty name). -/
theorem c9_extension :
    (∀ name : String, ('.') ∉ name.data → getFileType name = jsToLower name) ∧
    (∀ pre ext : String, ('.') ∉ ext.data →
      getFileType (pre ++ (".") ++ ext) = jsToLower ext) := by
  constructor
  · intro name h
    unfold getFileType
    rw [splitCh_of_not_mem ('.') name.data h]
    rfl
  · intro pre ext h
    unfold getFileType
    have hdata : (pre ++ (".") ++ ext).data = pre.data ++ ('.') :: ext.data := by
      rw [String.data_append, String.data_append]
      rw [List.append_assoc]
      rfl
    rw [hdata, splitCh_append, splitCh_of_not_mem ('.') ext.data h]
    rw [show splitCh ('.') pre.data ++ [ext.data] =
      splitCh ('.') pre.data ++ ext.data :: [] from rfl]
    rw [lastTokenD_append_cons]
    rfl

/-- C9 witness: a dotted name takes the lower-cased last segment. -/
theorem c9_witness :
    getFileType (("data") ++ (".") ++ ("CSV")) = jsToLower ("CSV") :=
  c9_extension.2 ("data") ("CSV") (by decide)

/-- C10: `generateResults` yields the empty list on a null analysis, and on
any non-null analysis a non-empty list whose first element is the text-type
result regardless of the output configuration. -/
theorem c10_generateResults_shape :
    (∀ (algorithmId : String) (outputConfig : OutputConfig) (rand : ℕ → ℚ)
      (now : ℕ) (timestamp : String),
      generateResults none algorithmId outputConfig rand now timestamp = []) ∧
    (∀ (fa : AnalysisResult) (algorithmId : String)
      (outputConfig : OutputConfig) (rand : ℕ → ℚ) (now : ℕ)
      (timestamp : String),
      generateResults (some fa) algorithmId outputConfig rand now timestamp ≠ [] ∧
      (generateResults (some fa) algorithmId outputConfig rand now
        timestamp).head?.map ResultRec.type = some ("text")) := by
  constructor
  · intro _ _ _ _ _
    rfl
  · intro fa algorithmId outputConfig rand now timestamp
    constructor
    · intro h
      exact List.noConfusion h
    · rfl

/-- C10 witness: the null case applied at concrete arguments. -/
theorem c10_witness :
    generateResults none ("k-means") ⟨none, false, false, none, none⟩
      (fun _ => 0) 0 ("t") = [] :=
  c10_generateResults_shape.1 ("k-means") ⟨none, false, false, none, none⟩
    (fun _ => 0) 0 ("t")

/-- C1 counterexample: the parse-failure placeholder `{}` does not take the
"Empty or invalid JSON file." early return — it reaches the single-object
branch and reports one record with zero fields. -/
theorem c1_counterexample :
    (analyzeJSON (readJSONContent none)).map PartialResult.summary =
      some ("JSON file with 1 records and 0 fields. Contains 0 numeric fields suitable for analysis.") ∧
    (analyzeJSON (readJSONContent none)).map PartialResult.summary ≠
      some ("Empty or invalid JSON file.") :=
  ⟨by decide, by decide⟩

/-- C1 amended: a JSON parse failure is swallowed into the empty object, and
analysis of the empty object proceeds through the single-object branch
(summary "JSON file with 1 records and 0 fields. …", row count 1, column
count 0, one KNN recommendation); the "Empty or invalid JSON file." record
is produced exactly for parsed values that are null or not objects. -/
theorem c1_json_parse_failure :
    readJSONContent none = JSON.obj [] ∧
    (analyzeJSON (JSON.obj [])).map PartialResult.summary =
      some ("JSON file with 1 records and 0 fields. Contains 0 numeric fields suitable for analysis.") ∧
    (analyzeJSON (JSON.obj [])).map PartialResult.rowCount = some (some 1) ∧
    (analyzeJSON (JSON.obj [])).map PartialResult.columnCount = some (some 0) ∧
    (analyzeJSON (JSON.obj [])).map PartialResult.recommendations =
      some (some [recKNN]) ∧
    (∀ content : JSON, (jsFalsy content = true ∨ jsTypeofObject content = false) →
      analyzeJSON content = some invalidJSONResult) := by
  refine ⟨rfl, by decide, by decide, by decide, by decide, ?_⟩
  intro content h
  have hc : (jsFalsy content || !(jsTypeofObject content)) = true := by
    rcases h with h | h
    · simp [h]
    · simp [h]
  unfold analyzeJSON
  rw [if_pos hc]

/-- C1 witness: a parsed scalar (valid JSON text `"5"`) takes the early
return. -/
theorem c1_witness : analyzeJSON (JSON.num 5) = some invalidJSONResult :=
  c1_json_parse_failure.2.2.2.2.2 (JSON.num 5) (Or.inr (by decide))

/-! ## Statistics-key lemmas for the analyzers -/

/-- Every statistics key of the CSV main path is typed `"number"`. -/
theorem analyzeCSVNonempty_stats (headerLine : String) (dataLines : List String)
    (k : String)
    (hk : k ∈ (((analyzeCSVNonempty headerLine dataLines).statistics.getD
      []).map Prod.fst)) :
    aget ((analyzeCSVNonempty headerLine dataLines).dataTypes.getD []) k =
      some ("number") := by
  simp only [analyzeCSVNonempty, Option.getD_some] at hk ⊢
  exact statsFoldMem _ _ _ _ [] (by simp) k hk

/-- Every statistics key of `analyzeCSV` is typed `"number"`. -/
theorem analyzeCSV_stats (content : String) (k : String)
    (hk : k ∈ (((analyzeCSV content).statistics.getD []).map Prod.fst)) :
    aget ((analyzeCSV content).dataTypes.getD []) k = some ("number") := by
  unfold analyzeCSV at hk ⊢
  rcases hls : (jsSplit ('\n') content).filter (fun line => jsTrim line != (""))
    with _ | ⟨l0, dls⟩
  · rw [hls] at hk
    simp [emptyCSVPartial] at hk
  · rw [hls] at hk
    exact analyzeCSVNonempty_stats l0 dls k hk

/-- Every statistics key of the JSON tail is typed `"number"`. -/
theorem mkJSONPartial_stats (rowCount : ℕ) (sampleData : List JSON)
    (headers : List String) (cols : String → List (Option JSON)) (k : String)
    (hk : k ∈ (((mkJSONPartial rowCount sampleData headers
      cols).statistics.getD []).map Prod.fst)) :
    aget ((mkJSONPartial rowCount sampleData headers cols).dataTypes.getD []) k =
      some ("number") := by
  simp only [mkJSONPartial, Option.getD_some] at hk ⊢
  exact statsFoldMem _ _ _ _ [] (by simp) k hk

/-- Every statistics key of `analyzeJSON` is typed `"number"`. -/
theorem analyzeJSON_stats (content : JSON) (p : PartialResult)
    (h : analyzeJSON content = some p) (k : String)
    (hk : k ∈ ((p.statistics.getD []).map Prod.fst)) :
    aget (p.dataTypes.getD []) k = some ("number") := by
  unfold analyzeJSON at h
  split_ifs at h with hguard
  · have hp := Option.some.inj h
    subst hp
    simp [invalidJSONResult] at hk
  · cases content with
    | null => simp [jsFalsy] at hguard
    | bool b => simp [jsTypeofObject] at hguard
    | num q => simp [jsTypeofObject] at hguard
    | str s => simp [jsTypeofObject] at hguard
    | arr xs =>
      rcases Option.map_eq_some'.mp h with ⟨pr, _, hp⟩
      subst hp
      exact mkJSONPartial_stats _ _ _ _ k hk
    | obj fs =>
      rcases Option.map_eq_some'.mp h with ⟨hs, _, hp⟩
      subst hp
      exact mkJSONPartial_stats _ _ _ _ k hk

/-- C2 counterexample: for a concrete text file, the statistics keys are the
fixed word/char/average entries while there are no numeric headers at all
(no `dataTypes` is produced), so the claimed subset inclusion fails. -/
theorem c2_counterexample :
    (analyzeFile ("notes.txt") 11 ("hello world") none).map statisticsKeys =
      some [("wordCount"), ("charCount"), ("avgWordsPerLine")] ∧
    (analyzeFile ("notes.txt") 11 ("hello world") none).map numericHeaders =
      some [] ∧
    ¬ (∀ k ∈ [("wordCount"), ("charCount"), ("avgWordsPerLine")],
        k ∈ ([] : List String)) :=
  ⟨by decide, by decide, by decide⟩

/-- C2 amended: for every file whose detected type is not `txt`, the keys of
the returned statistics record are contained in the headers whose data type
is `"number"` (the TXT analyzer instead always emits the fixed
word-count/char-count/average keys, unrelated to any headers). -/
theorem c2_statistics_numeric :
    ∀ (name : String) (size : ℕ) (text : String) (parsed : Option JSON)
      (r : AnalysisResult),
      getFileType name ≠ ("txt") →
      analyzeFile name size text parsed = some r →
      ∀ k ∈ statisticsKeys r, k ∈ numericHeaders r := by
  intro name size text parsed r htxt h k hk
  simp only [analyzeFile] at h
  by_cases h1 : getFileType name = ("csv")
  · rw [if_pos h1, Option.map_some'] at h
    have hp := Option.some.inj h
    subst hp
    exact aget_number_mem (analyzeCSV_stats text k hk)
  · rw [if_neg h1] at h
    by_cases h2 : getFileType name = ("json")
    · rw [if_pos h2] at h
      rcases Option.map_eq_some'.mp h with ⟨p, hjson, hp⟩
      subst hp
      exact aget_number_mem (analyzeJSON_stats _ p hjson k hk)
    · rw [if_neg h2, if_neg htxt] at h
      by_cases h4 : getFileType name = ("xlsx")
      · rw [if_pos h4, Option.map_some'] at h
        have hp := Option.some.inj h
        subst hp
        simp [statisticsKeys, mergeResult, xlsxPartial] at hk
      · rw [if_neg h4, Option.map_some'] at h
        have hp := Option.some.inj h
        subst hp
        simp [statisticsKeys, mergeResult, unsupportedPartial] at hk

/-- C2 witness: for a one-column numeric CSV, the single statistics key
`"a"` is among the numeric headers. -/
theorem c2_witness :
    ("a") ∈ numericHeaders
      (mergeResult ("csv") (formatFileSize 7) (analyzeCSV ("a\n1"))) := by
  refine c2_statistics_numeric ("d.csv") 7 ("a\n1") none
    (mergeResult ("csv") (formatFileSize 7) (analyzeCSV ("a\n1")))
    (by decide) rfl ("a") ?_
  decide

/-! ## Statistics correctness (C5) -/

/-- C5: on a non-empty list the stats record holds the extrema, the
arithmetic mean, the midpoint of the ascending-sorted sequence, the
population variance (so `stdDev`, its real square root, squares back to the
variance and is non-negative), and the count; the empty list produces the
empty record; and concretely `stdDev [5,5,5] = 0`,
`median [1,2,3,4] = 5/2`, `mean [1,2,3] = 2`. -/
theorem c5_calculateStatistics :
    (∀ (values : List ℚ) (s : Stats), calculateStatistics values = some s →
      (s.min ∈ values ∧ ∀ x ∈ values, s.min ≤ x) ∧
      (s.max ∈ values ∧ ∀ x ∈ values, x ≤ s.max) ∧
      s.mean = values.sum / (values.length : ℚ) ∧
      (∀ m : List ℚ, values.Perm m → m.Sorted (fun a b => a ≤ b) →
        s.median = medianOfSorted m) ∧
      s.variance =
        ((values.map (fun x => (x - s.mean) ^ 2)).sum) / (values.length : ℚ) ∧
      s.count = values.length ∧
      stdDevR s ^ 2 = (s.variance : ℝ) ∧ 0 ≤ stdDevR s) ∧
    calculateStatistics ([] : List ℚ) = none ∧
    (∃ s : Stats, calculateStatistics [5, 5, 5] = some s ∧ stdDevR s = 0) ∧
    (∃ s : Stats, calculateStatistics [1, 2, 3, 4] = some s ∧ s.median = 5 / 2) ∧
    (∃ s : Stats, calculateStatistics [1, 2, 3] = some s ∧ s.mean = 2) := by
  refine ⟨?_, rfl, ?_, ?_, ?_⟩
  · intro values s h
    cases values with
    | nil => exact Option.noConfusion h
    | cons v vs =>
      simp only [calculateStatistics, Option.some.injEq] at h
      subst h
      have hvar_nonneg : (0 : ℚ) ≤
          (((v :: vs).map (fun x => (x - (v :: vs).foldl (fun a b => a + b) 0 /
            ((v :: vs).length : ℚ)) ^ 2)).foldl (fun a b => a + b) 0) /
            (((v :: vs).length : ℚ)) := by
        apply div_nonneg
        · rw [foldl_add_eq_sum, zero_add]
          apply List.sum_nonneg
          intro x hx
          rcases List.mem_map.mp hx with ⟨y, _, rfl⟩
          exact sq_nonneg _
        · positivity
      refine ⟨⟨foldl_min_mem v vs, foldl_min_le v vs⟩,
        ⟨foldl_max_mem v vs, foldl_max_le v vs⟩, ?_, ?_, ?_, rfl, ?_, ?_⟩
      · show (v :: vs).foldl (fun a b => a + b) 0 / ((v :: vs).length : ℚ) = _
        rw [foldl_add_eq_sum, zero_add]
      · intro m hperm hsorted
        have hm : (v :: vs).insertionSort (fun a b => a ≤ b) = m :=
          List.eq_of_perm_of_sorted
            ((List.perm_insertionSort _ _).trans hperm)
            (List.sorted_insertionSort _ _) hsorted
        show (if (v :: vs).length % 2 = 0 then
            (((v :: vs).insertionSort (fun a b => a ≤ b)).getD
              ((v :: vs).length / 2 - 1) 0 +
              ((v :: vs).insertionSort (fun a b => a ≤ b)).getD
                ((v :: vs).length / 2) 0) / 2
          else ((v :: vs).insertionSort (fun a b => a ≤ b)).getD
            ((v :: vs).length / 2) 0) = medianOfSorted m
        rw [hm, medianOfSorted,
          show m.length = (v :: vs).length from by
            rw [← hm, List.length_insertionSort]]
      · show (((v :: vs).map (fun x => (x - (v :: vs).foldl (fun a b => a + b) 0 /
            ((v :: vs).length : ℚ)) ^ 2)).foldl (fun a b => a + b) 0) /
            (((v :: vs).length : ℚ)) = _
        rw [foldl_add_eq_sum, zero_add]
      · show Real.sqrt _ ^ 2 = _
        exact Real.sq_sqrt (by exact_mod_cast hvar_nonneg)
      · exact Real.sqrt_nonneg _
  · refine ⟨⟨5, 5, 5, 5, 0, 3⟩, ?_, ?_⟩
    · simp only [calculateStatistics, Option.some.injEq, Stats.mk.injEq]
      norm_num [List.insertionSort, List.orderedInsert, List.foldl, List.getD,
        List.map]
    · show Real.sqrt ((0 : ℚ) : ℝ) = 0
      simp
  · refine ⟨⟨1, 4, 5/2, 5/2, 5/4, 4⟩, ?_, rfl⟩
    simp only [calculateStatistics, Option.some.injEq, Stats.mk.injEq]
    norm_num [List.insertionSort, List.orderedInsert, List.foldl, List.getD,
      List.map]
  · refine ⟨⟨1, 3, 2, 2, 2/3, 3⟩, ?_, rfl⟩
    simp only [calculateStatistics, Option.some.injEq, Stats.mk.injEq]
    norm_num [List.insertionSort, List.orderedInsert, List.foldl, List.getD,
      List.map]

/-- C5 witness: the mean clause applied to the concrete list `[1,2,3]`. -/
theorem c5_witness :
    ((⟨1, 3, 2, 2, 2/3, 3⟩ : Stats).mean =
      ([1, 2, 3] : List ℚ).sum / (([1, 2, 3] : List ℚ).length : ℚ)) :=
  (c5_calculateStatistics.1 [1, 2, 3] ⟨1, 3, 2, 2, 2/3, 3⟩ (by
    simp only [calculateStatistics, Option.some.injEq, Stats.mk.injEq]
    norm_num [List.insertionSort, List.orderedInsert, List.foldl, List.getD,
      List.map])).2.2.1

end DataAlgo
